import Mathlib

/-!
Verification of the short-URL MySQL storage backend
(`src/infra/src/short_url/mysql.rs`).

The table `short_urls` (created by `MysqlShortUrl::create_table`) has columns
`id BIGINT AUTO_INCREMENT PRIMARY KEY`, `short_id VARCHAR(32) NOT NULL`,
`original_url TEXT NOT NULL`, `created_ts BIGINT NOT NULL`, and
`MysqlShortUrl::create_table_index` puts a UNIQUE index on `short_id` and a
non-unique index on `created_ts`.

Each trait method is embedded as a pure function on an explicit table state.
The backend (MySQL via sqlx) is modelled by the standard meaning of the SQL
text each method sends; a possible transport/driver failure is made explicit
as an extra `Option SqlxError` argument (`none` = the backend executed the
statement, `some e` = the driver call returned `Err(e)`), and the store clock
(`Utc::now().timestamp_micros()`) is an explicit `created_ts` argument.
-/

namespace ShortUrlSpec

/-- A persisted row of the `short_urls` table: surrogate key `id`
(auto-increment), the `short_id` key, the stored `original_url`, and the
microsecond creation timestamp `created_ts`. -/
structure Row where
  id : Nat
  short_id : String
  original_url : String
  created_ts : Int
deriving Repr, DecidableEq

/-- The state of the `short_urls` table: the live rows in table order, and the
next value of the auto-increment `id` counter. -/
structure Store where
  rows : List Row
  next_id : Nat
deriving Repr, DecidableEq

/-- The sqlx driver errors this module distinguishes: `RowNotFound` (from
`fetch_one` on an empty result), `Database(err)` with its
`is_unique_violation()` flag (matched in `MysqlShortUrl::add`), and any other
driver/transport failure. -/
inductive SqlxError where
  | rowNotFound
  | database (is_unique : Bool) (msg : String)
  | other (msg : String)
deriving Repr, DecidableEq

/-- `DbError` variants relevant to this module (`crate::errors::DbError`):
`UniqueViolation` is constructed explicitly in `MysqlShortUrl::add`;
`NotFound` is the spec's kind for a failed point lookup. -/
inductive DbError where
  | UniqueViolation
  | NotFound
deriving Repr, DecidableEq

/-- `crate::errors::Error` as used by this module: a classified `DbError` or a
wrapped raw sqlx error (the spec's generic `StoreError`). -/
inductive Error where
  | DbError (e : DbError)
  | SqlxError (e : SqlxError)
deriving Repr, DecidableEq

/-- Modelled from the spec: the `From<sqlx::Error> for Error` conversion
applied by the `?` operator lives in `crate::errors`, which is not among the
examined sources. Per the spec's error taxonomy ("Fails with `NotFound` if no
row matches; `StoreError` otherwise"), `RowNotFound` is classified as the
`NotFound` kind and every other driver error stays a generic wrapped sqlx
error. -/
def errorFromSqlx : SqlxError → Error
  | .rowNotFound => .DbError .NotFound
  | e => .SqlxError e

/-- The `ShortUrlRecord` rows of `get`/`list` are decoded into: exactly the
two selected columns `short_id` and `original_url`. -/
structure ShortUrlRecord where
  short_id : String
  original_url : String
deriving Repr, DecidableEq

/-- The `WHERE short_id = ?` predicate. -/
def rowMatches (sid : String) (r : Row) : Bool :=
  r.short_id == sid

/-- Projection of a row to the `SELECT short_id, original_url` record. -/
def Row.toRecord (r : Row) : ShortUrlRecord :=
  ⟨r.short_id, r.original_url⟩

/-- The effect of an optional `LIMIT ?` clause on a result set. -/
def limitTake {α : Type} (limit : Option Int) (xs : List α) : List α :=
  match limit with
  | some n => xs.take n.toNat
  | none => xs

/-- MySQL executing the `INSERT INTO short_urls (short_id, original_url,
created_ts) VALUES (?, ?, ?)` of `MysqlShortUrl::add` with the bound values
passed verbatim: because of the UNIQUE index on `short_id`, a row whose
`short_id` already exists makes the statement fail with a database error whose
`is_unique_violation()` is true and leaves the table unchanged; otherwise the
row is appended with the next auto-increment `id`. (Server-side column-width
enforcement of `VARCHAR(32)` is a backend concern, not performed by this
layer, and is not modelled.) A driver/transport failure is the `transport`
argument. -/
def backendInsert (transport : Option SqlxError) (s : Store)
    (sid url : String) (ts : Int) : Except SqlxError Store :=
  match transport with
  | some e => .error e
  | none =>
    if s.rows.any (rowMatches sid) then
      .error (.database true "Duplicate entry")
    else
      .ok { rows := s.rows ++ [⟨s.next_id, sid, url, ts⟩], next_id := s.next_id + 1 }

/-- `MysqlShortUrl::add`: runs the INSERT, then matches the result:
`Ok(_)` becomes `Ok(())`, `Err(sqlx::Error::Database(err))` with
`err.is_unique_violation()` becomes `Err(Error::DbError(DbError::UniqueViolation))`,
and any other error is wrapped as `Err(Error::SqlxError(e))`.
Returns the method result together with the table state afterwards. -/
def MysqlShortUrl.add (transport : Option SqlxError) (s : Store)
    (short_id original_url : String) (created_ts : Int) :
    Except Error Unit × Store :=
  match backendInsert transport s short_id original_url created_ts with
  | .ok s2 => (.ok (), s2)
  | .error (.database true _) => (.error (.DbError .UniqueViolation), s)
  | .error e => (.error (.SqlxError e), s)

/-- `MysqlShortUrl::remove`: `DELETE FROM short_urls WHERE short_id = ?`,
propagating a driver failure through `?`; deletes every row matching the key
(at most one while the UNIQUE index invariant holds). -/
def MysqlShortUrl.remove (transport : Option SqlxError) (s : Store)
    (short_id : String) : Except Error Unit × Store :=
  match transport with
  | some e => (.error (errorFromSqlx e), s)
  | none => (.ok (), { s with rows := s.rows.filter (fun r => !rowMatches short_id r) })

/-- `MysqlShortUrl::get`: `SELECT short_id, original_url FROM short_urls WHERE
short_id = ?` via `fetch_one`, which yields the first matching row or
`sqlx::Error::RowNotFound`; errors propagate through `?`. -/
def MysqlShortUrl.get (transport : Option SqlxError) (s : Store)
    (short_id : String) : Except Error ShortUrlRecord :=
  match transport with
  | some e => .error (errorFromSqlx e)
  | none =>
    match s.rows.find? (rowMatches short_id) with
    | some r => .ok r.toRecord
    | none => .error (errorFromSqlx .rowNotFound)

/-- The row list produced by the query of `MysqlShortUrl::list`:
`SELECT short_id, original_url FROM short_urls ORDER BY created_ts DESC`,
with ` LIMIT ?` appended when a limit is given. `ORDER BY created_ts DESC` is
a stable descending sort on `created_ts`. -/
def listRows (s : Store) (limit : Option Int) : List Row :=
  limitTake limit (s.rows.mergeSort (fun a b => decide (b.created_ts ≤ a.created_ts)))

/-- `MysqlShortUrl::list`: runs the ordered (and optionally limited) SELECT
and decodes each row into a `ShortUrlRecord`; errors propagate through `?`. -/
def MysqlShortUrl.list (transport : Option SqlxError) (s : Store)
    (limit : Option Int) : Except Error (List ShortUrlRecord) :=
  match transport with
  | some e => .error (errorFromSqlx e)
  | none => .ok ((listRows s limit).map Row.toRecord)

/-- `MysqlShortUrl::contains`: `SELECT 1 FROM short_urls WHERE short_id = ?`
via `fetch_all`, returning whether the result set is non-empty. -/
def MysqlShortUrl.contains (transport : Option SqlxError) (s : Store)
    (short_id : String) : Except Error Bool :=
  match transport with
  | some e => .error (errorFromSqlx e)
  | none => .ok (!(s.rows.filter (rowMatches short_id)).isEmpty)

/-- `MysqlShortUrl::len`: `SELECT COUNT(*) AS num FROM short_urls`; on a query
error it logs and returns `0` instead of propagating (the `try_get` fallback
to `0` cannot fire in the model, since `COUNT(*)` always yields an integer
column). -/
def MysqlShortUrl.len (transport : Option SqlxError) (s : Store) : Nat :=
  match transport with
  | some _ => 0
  | none => s.rows.length

/-- `MysqlShortUrl::clear`: `DELETE FROM short_urls`; both arms of the match
only log, and the method returns `Ok(())` unconditionally. -/
def MysqlShortUrl.clear (transport : Option SqlxError) (s : Store) :
    Except Error Unit × Store :=
  match transport with
  | some _ => (.ok (), s)
  | none => (.ok (), { s with rows := [] })

/-- `MysqlShortUrl::is_empty`: `self.len().await == 0`. -/
def MysqlShortUrl.is_empty (transport : Option SqlxError) (s : Store) : Bool :=
  MysqlShortUrl.len transport s == 0

/-- `MysqlShortUrl::get_expired`: `SELECT short_id FROM short_urls WHERE
created_ts < ?` with ` LIMIT ?` appended when a limit is given (no ORDER BY:
the model keeps table order); errors propagate through `?`. -/
def MysqlShortUrl.get_expired (transport : Option SqlxError) (s : Store)
    (expired_before : Int) (limit : Option Int) : Except Error (List String) :=
  match transport with
  | some e => .error (errorFromSqlx e)
  | none =>
    .ok ((limitTake limit (s.rows.filter (fun r => decide (r.created_ts < expired_before)))).map
      Row.short_id)

/-- `MysqlShortUrl::batch_remove`: returns `Ok(())` immediately on an empty
list without touching the pool; otherwise `DELETE FROM short_urls WHERE
short_id IN (?, ..., ?)` with one bind per id, errors propagating through
`?`. -/
def MysqlShortUrl.batch_remove (transport : Option SqlxError) (s : Store)
    (short_ids : List String) : Except Error Unit × Store :=
  if short_ids.isEmpty then (.ok (), s)
  else
    match transport with
    | some e => (.error (errorFromSqlx e), s)
    | none => (.ok (), { s with rows := s.rows.filter (fun r => !short_ids.contains r.short_id) })

/-- The invariant maintained by the UNIQUE index on `short_id`: no two live
rows share a `short_id`. -/
def uniqueShortIds (s : Store) : Prop :=
  (s.rows.map Row.short_id).Nodup

instance (s : Store) : Decidable (uniqueShortIds s) := by
  unfold uniqueShortIds
  infer_instance

end ShortUrlSpec

namespace ShortUrlSpec

/-- C1: when a row with `short_id` already exists (the first matching row
being `r0`), `add` fails with the normalized `UniqueViolation` error, leaves
the table state unchanged, and a subsequent `get` on that state still returns
the first record's `short_id` and `original_url`. -/
theorem add_duplicate_uniqueViolation (s : Store) (sid url : String) (ts : Int) (r0 : Row)
    (h : s.rows.find? (rowMatches sid) = some r0) :
    (MysqlShortUrl.add none s sid url ts).1 = .error (.DbError .UniqueViolation) ∧
    (MysqlShortUrl.add none s sid url ts).2 = s ∧
    MysqlShortUrl.get none (MysqlShortUrl.add none s sid url ts).2 sid
      = .ok ⟨r0.short_id, r0.original_url⟩ := by
  have hmem := List.mem_of_find?_eq_some h
  have hp := List.find?_some h
  have hany : s.rows.any (rowMatches sid) = true := List.any_eq_true.mpr ⟨r0, hmem, hp⟩
  refine ⟨?_, ?_, ?_⟩ <;>
    simp [MysqlShortUrl.add, backendInsert, hany, MysqlShortUrl.get, h, Row.toRecord]

/-- C1, applied at a concrete one-row store and a colliding second insert. -/
theorem add_duplicate_uniqueViolation_witness :
    (MysqlShortUrl.add none ⟨[⟨0, "abc123", "https://example.com/a", 1⟩], 1⟩
        "abc123" "https://example.com/b" 2).1 = .error (.DbError .UniqueViolation) ∧
    MysqlShortUrl.get none
        (MysqlShortUrl.add none ⟨[⟨0, "abc123", "https://example.com/a", 1⟩], 1⟩
          "abc123" "https://example.com/b" 2).2 "abc123"
      = .ok ⟨"abc123", "https://example.com/a"⟩ :=
  ⟨(add_duplicate_uniqueViolation ⟨[⟨0, "abc123", "https://example.com/a", 1⟩], 1⟩
      "abc123" "https://example.com/b" 2 ⟨0, "abc123", "https://example.com/a", 1⟩
      (by decide)).1,
   (add_duplicate_uniqueViolation ⟨[⟨0, "abc123", "https://example.com/a", 1⟩], 1⟩
      "abc123" "https://example.com/b" 2 ⟨0, "abc123", "https://example.com/a", 1⟩
      (by decide)).2.2⟩

/-- C2: when `add` succeeds, `get` of the same `short_id` on the resulting
state succeeds and returns a record whose `original_url` is exactly the url
that was inserted. -/
theorem add_get_roundtrip (s s2 : Store) (sid url : String) (ts : Int)
    (h : MysqlShortUrl.add none s sid url ts = (.ok (), s2)) :
    MysqlShortUrl.get none s2 sid = .ok ⟨sid, url⟩ := by
  cases hany : s.rows.any (rowMatches sid) with
  | true => simp [MysqlShortUrl.add, backendInsert, hany] at h
  | false =>
    have hnone : s.rows.find? (rowMatches sid) = none :=
      List.find?_eq_none.mpr (by simpa using List.any_eq_false.mp hany)
    simp only [MysqlShortUrl.add, backendInsert, hany, Bool.false_eq_true, if_false,
      Prod.mk.injEq, true_and] at h
    subst h
    simp [MysqlShortUrl.get, List.find?_append, hnone, List.find?, rowMatches, Row.toRecord]

/-- C2, applied at the empty store with a concrete insert. -/
theorem add_get_roundtrip_witness :
    MysqlShortUrl.get none ⟨[⟨0, "abc123", "https://example.com/a", 5⟩], 1⟩ "abc123"
      = .ok ⟨"abc123", "https://example.com/a"⟩ :=
  add_get_roundtrip ⟨[], 0⟩ ⟨[⟨0, "abc123", "https://example.com/a", 5⟩], 1⟩
    "abc123" "https://example.com/a" 5 (by rfl)

/-- C3: `get` fails with the `NotFound` error kind (not a generic wrapped
driver error) when no row matches, and returns the matching row's `short_id`
and `original_url` when one does. -/
theorem get_notFound_or_record (s : Store) (sid : String) :
    (s.rows.find? (rowMatches sid) = none →
      MysqlShortUrl.get none s sid = .error (.DbError .NotFound)) ∧
    (∀ r, s.rows.find? (rowMatches sid) = some r →
      MysqlShortUrl.get none s sid = .ok ⟨r.short_id, r.original_url⟩) := by
  constructor
  · intro h
    simp [MysqlShortUrl.get, h, errorFromSqlx]
  · intro r h
    simp [MysqlShortUrl.get, h, Row.toRecord]

/-- C3, applied at a concrete empty store (miss) and one-row store (hit). -/
theorem get_notFound_or_record_witness :
    MysqlShortUrl.get none ⟨[], 0⟩ "a" = .error (.DbError .NotFound) ∧
    MysqlShortUrl.get none ⟨[⟨0, "a", "u", 1⟩], 1⟩ "a" = .ok ⟨"a", "u"⟩ :=
  ⟨(get_notFound_or_record ⟨[], 0⟩ "a").1 (by decide),
   (get_notFound_or_record ⟨[⟨0, "a", "u", 1⟩], 1⟩ "a").2 ⟨0, "a", "u", 1⟩ (by decide)⟩

end ShortUrlSpec

namespace ShortUrlSpec

/-- Shared fact: the sort performed by `ORDER BY created_ts DESC` yields a
list that is pairwise descending on `created_ts`. -/
theorem mergeSort_desc_sorted (s : Store) :
    (s.rows.mergeSort (fun a b => decide (b.created_ts ≤ a.created_ts))).Pairwise
      (fun a b => b.created_ts ≤ a.created_ts) := by
  have h :=
    @List.sorted_mergeSort Row (fun a b => decide (b.created_ts ≤ a.created_ts))
      (by intro a b c hab hbc; simp only [decide_eq_true_eq] at *; omega)
      (by intro a b; simp [Int.le_total]) s.rows
  exact h.imp (by simp)

/-- C4: with a positive limit `N`, `list` returns at most `N` records; with
any (or no) limit the underlying row list is ordered by `created_ts`
descending; with no limit `list` returns a record for every stored row (the
result is a permutation of the projection of all rows). -/
theorem list_limit_and_order (s : Store) (N : Int) (lim : Option Int) (hN : 0 < N) :
    (∀ res, MysqlShortUrl.list none s (some N) = .ok res → res.length ≤ N.toNat) ∧
    (listRows s lim).Pairwise (fun a b => b.created_ts ≤ a.created_ts) ∧
    (∀ res, MysqlShortUrl.list none s none = .ok res →
      res.Perm (s.rows.map Row.toRecord)) := by
  refine ⟨?_, ?_, ?_⟩
  · intro res h
    simp only [MysqlShortUrl.list, Except.ok.injEq] at h
    subst h
    simp only [listRows, limitTake, List.length_map]
    exact List.length_take_le _ _
  · cases lim with
    | none => simpa [listRows, limitTake] using mergeSort_desc_sorted s
    | some n =>
      simpa [listRows, limitTake] using
        List.Pairwise.sublist (List.take_sublist _ _) (mergeSort_desc_sorted s)
  · intro res h
    simp only [MysqlShortUrl.list, Except.ok.injEq] at h
    subst h
    simp only [listRows, limitTake]
    exact (List.mergeSort_perm s.rows _).map Row.toRecord

/-- C4, applied at a concrete two-row store (already stored newest-first) with
limit 1. -/
theorem list_limit_and_order_witness :
    ([(⟨"c", "u3"⟩ : ShortUrlRecord)].length ≤ (1 : Int).toNat) ∧
    (listRows ⟨[⟨1, "c", "u3", 3⟩, ⟨0, "b", "u2", 2⟩], 2⟩ (some 1)).Pairwise
      (fun a b => b.created_ts ≤ a.created_ts) := by
  constructor
  · refine (list_limit_and_order ⟨[⟨1, "c", "u3", 3⟩, ⟨0, "b", "u2", 2⟩], 2⟩ 1 (some 1)
      (by decide)).1 [⟨"c", "u3"⟩] ?_
    simp only [MysqlShortUrl.list, listRows, limitTake]
    rw [List.mergeSort_of_sorted (by decide)]
    rfl
  · exact (list_limit_and_order ⟨[⟨1, "c", "u3", 3⟩, ⟨0, "b", "u2", 2⟩], 2⟩ 1 (some 1)
      (by decide)).2.1

end ShortUrlSpec

namespace ShortUrlSpec

/-- C5: `get_expired(cutoff)` with no limit returns exactly the short_ids of
rows with `created_ts < cutoff`; with a limit the result is capped at the
limit and still drawn only from those rows; and (under the UNIQUE-index
invariant) no short_id whose row has `created_ts ≥ cutoff` is ever
returned. -/
theorem get_expired_exact (s : Store) (cutoff : Int) :
    (∀ ids, MysqlShortUrl.get_expired none s cutoff none = .ok ids →
      ∀ sid, sid ∈ ids ↔ ∃ r ∈ s.rows, r.short_id = sid ∧ r.created_ts < cutoff) ∧
    (∀ n ids, MysqlShortUrl.get_expired none s cutoff (some n) = .ok ids →
      ids.length ≤ n.toNat ∧
      ∀ sid ∈ ids, ∃ r ∈ s.rows, r.short_id = sid ∧ r.created_ts < cutoff) ∧
    (uniqueShortIds s →
      ∀ ids, MysqlShortUrl.get_expired none s cutoff none = .ok ids →
        ∀ r ∈ s.rows, cutoff ≤ r.created_ts → r.short_id ∉ ids) := by
  refine ⟨?_, ?_, ?_⟩
  · intro ids h sid
    simp only [MysqlShortUrl.get_expired, Except.ok.injEq] at h
    subst h
    simp only [limitTake, List.mem_map, List.mem_filter, decide_eq_true_eq]
    constructor
    · rintro ⟨r, ⟨hr, hts⟩, hsid⟩
      exact ⟨r, hr, hsid, hts⟩
    · rintro ⟨r, hr, hsid, hts⟩
      exact ⟨r, ⟨hr, hts⟩, hsid⟩
  · intro n ids h
    simp only [MysqlShortUrl.get_expired, Except.ok.injEq] at h
    subst h
    constructor
    · simp only [limitTake, List.length_map]
      exact List.length_take_le _ _
    · intro sid hsid
      simp only [limitTake, List.mem_map] at hsid
      obtain ⟨r, hr, hsid⟩ := hsid
      have hr' := List.mem_of_mem_take hr
      simp only [List.mem_filter, decide_eq_true_eq] at hr'
      exact ⟨r, hr'.1, hsid, hr'.2⟩
  · intro hu ids h r hr hts hmem
    simp only [MysqlShortUrl.get_expired, Except.ok.injEq] at h
    subst h
    simp only [limitTake, List.mem_map, List.mem_filter, decide_eq_true_eq] at hmem
    obtain ⟨r', ⟨hr', hts'⟩, hsid⟩ := hmem
    have : r' = r := List.inj_on_of_nodup_map hu hr' hr hsid
    subst this
    omega

/-- C5, applied at a store holding one expired and one live row with
cutoff 2. -/
theorem get_expired_exact_witness :
    ("a" ∈ ["a"] ↔
      ∃ r ∈ [(⟨0, "a", "u1", 1⟩ : Row), ⟨1, "b", "u2", 5⟩],
        r.short_id = "a" ∧ r.created_ts < 2) ∧
    Row.short_id ⟨1, "b", "u2", 5⟩ ∉ ["a"] := by
  constructor
  · exact (get_expired_exact ⟨[⟨0, "a", "u1", 1⟩, ⟨1, "b", "u2", 5⟩], 2⟩ 2).1 ["a"] (by rfl) "a"
  · exact (get_expired_exact ⟨[⟨0, "a", "u1", 1⟩, ⟨1, "b", "u2", 5⟩], 2⟩ 2).2.2 (by decide)
      ["a"] (by rfl) ⟨1, "b", "u2", 5⟩ (by decide) (by decide)

/-- C6: `batch_remove` always succeeds on the success path, afterwards
`contains` is false for every listed id and unchanged for every other id, and
the empty list is a no-op. -/
theorem batch_remove_drains (s : Store) (ids : List String) :
    (MysqlShortUrl.batch_remove none s ids).1 = .ok () ∧
    (∀ sid ∈ ids,
      MysqlShortUrl.contains none (MysqlShortUrl.batch_remove none s ids).2 sid = .ok false) ∧
    (∀ sid, sid ∉ ids →
      MysqlShortUrl.contains none (MysqlShortUrl.batch_remove none s ids).2 sid
        = MysqlShortUrl.contains none s sid) ∧
    (MysqlShortUrl.batch_remove none s []).2 = s := by
  refine ⟨?_, ?_, ?_, by simp [MysqlShortUrl.batch_remove]⟩
  · by_cases he : ids.isEmpty <;> simp [MysqlShortUrl.batch_remove, he]
  · intro sid hsid
    have he : ids.isEmpty = false := by
      cases ids with
      | nil => cases hsid
      | cons a l => rfl
    simp only [MysqlShortUrl.batch_remove, he, Bool.false_eq_true, if_false]
    simp only [MysqlShortUrl.contains, Except.ok.injEq]
    rw [List.filter_filter]
    rw [show (List.filter (fun r => rowMatches sid r && !ids.contains r.short_id) s.rows) = []
      from ?_]
    · rfl
    · rw [List.filter_eq_nil_iff]
      intro r _ hcontra
      simp only [rowMatches, Bool.and_eq_true, beq_iff_eq, Bool.not_eq_true',
        List.contains_eq_any_beq, List.any_eq_false, beq_iff_eq] at hcontra
      exact hcontra.2 sid hsid hcontra.1
  · intro sid hsid
    by_cases he : ids.isEmpty
    · simp [MysqlShortUrl.batch_remove, he]
    · simp only [MysqlShortUrl.batch_remove, he, Bool.false_eq_true, if_false]
      simp only [MysqlShortUrl.contains, Except.ok.injEq]
      rw [List.filter_filter]
      rw [List.filter_congr]
      intro r _
      by_cases hm : rowMatches sid r
      · have hm' : r.short_id = sid := by simpa [rowMatches] using hm
        have hnm : r.short_id ∉ ids := by rw [hm']; exact hsid
        simp [hm, hnm]
      · simp [hm]

/-- C6, applied at a concrete two-row store with one id removed. -/
theorem batch_remove_drains_witness :
    (MysqlShortUrl.batch_remove none ⟨[⟨0, "a", "u", 1⟩, ⟨1, "b", "v", 2⟩], 2⟩ ["a"]).1
      = .ok () ∧
    MysqlShortUrl.contains none
        (MysqlShortUrl.batch_remove none ⟨[⟨0, "a", "u", 1⟩, ⟨1, "b", "v", 2⟩], 2⟩ ["a"]).2 "a"
      = .ok false ∧
    MysqlShortUrl.contains none
        (MysqlShortUrl.batch_remove none ⟨[⟨0, "a", "u", 1⟩, ⟨1, "b", "v", 2⟩], 2⟩ ["a"]).2 "b"
      = MysqlShortUrl.contains none ⟨[⟨0, "a", "u", 1⟩, ⟨1, "b", "v", 2⟩], 2⟩ "b" :=
  ⟨(batch_remove_drains ⟨[⟨0, "a", "u", 1⟩, ⟨1, "b", "v", 2⟩], 2⟩ ["a"]).1,
   (batch_remove_drains ⟨[⟨0, "a", "u", 1⟩, ⟨1, "b", "v", 2⟩], 2⟩ ["a"]).2.1 "a" (by decide),
   (batch_remove_drains ⟨[⟨0, "a", "u", 1⟩, ⟨1, "b", "v", 2⟩], 2⟩ ["a"]).2.2.1 "b" (by decide)⟩

end ShortUrlSpec

namespace ShortUrlSpec

/-- C7: `len` is total (it returns a plain count, never an error value): on a
successful query it returns the row count, and on a driver failure it returns
`0` instead of propagating the error. -/
theorem len_count_or_zero (s : Store) (e : SqlxError) :
    MysqlShortUrl.len none s = s.rows.length ∧
    MysqlShortUrl.len (some e) s = 0 := by
  exact ⟨rfl, rfl⟩

/-- C8: `clear` reports success for every state and every driver outcome; on
a successful delete all rows are gone. -/
theorem clear_always_ok (s : Store) (t : Option SqlxError) :
    (MysqlShortUrl.clear t s).1 = .ok () ∧
    (MysqlShortUrl.clear none s).2.rows = [] := by
  refine ⟨?_, rfl⟩
  cases t <;> rfl

/-- Shared fact: when no two rows share a `short_id`, deleting by one key
removes at most one row. -/
theorem length_le_filter_length_succ (sid : String) :
    ∀ l : List Row, (l.map Row.short_id).Nodup →
      l.length ≤ (l.filter (fun r => !rowMatches sid r)).length + 1
  | [], _ => by simp
  | r :: l, h => by
    simp only [List.map_cons, List.nodup_cons, List.mem_map] at h
    by_cases hp : rowMatches sid r
    · have hm : r.short_id = sid := by simpa [rowMatches] using hp
      have hl : l.filter (fun x => !rowMatches sid x) = l := by
        rw [List.filter_eq_self]
        intro a ha
        have hne : a.short_id ≠ sid := fun hcontra => h.1 ⟨a, ha, by rw [hcontra, hm]⟩
        simp [rowMatches, hne]
      simp [List.filter_cons, hp, hl]
    · have ih := length_le_filter_length_succ sid l h.2
      simp only [List.filter_cons, hp, Bool.not_false, if_true, List.length_cons]
      omega

/-- C9: `remove` succeeds even when no row matches (and succeeds again on a
second call with the same key), deletes at most one row under the
UNIQUE-index invariant, keeps every non-matching row, and leaves the state
unchanged when no row matches. -/
theorem remove_idempotent_at_most_one (s : Store) (sid : String) (h : uniqueShortIds s) :
    (MysqlShortUrl.remove none s sid).1 = .ok () ∧
    (MysqlShortUrl.remove none (MysqlShortUrl.remove none s sid).2 sid).1 = .ok () ∧
    s.rows.length ≤ (MysqlShortUrl.remove none s sid).2.rows.length + 1 ∧
    (∀ r ∈ s.rows, r.short_id ≠ sid → r ∈ (MysqlShortUrl.remove none s sid).2.rows) ∧
    (s.rows.all (fun r => !rowMatches sid r) → (MysqlShortUrl.remove none s sid).2 = s) := by
  refine ⟨rfl, rfl, ?_, ?_, ?_⟩
  · exact length_le_filter_length_succ sid s.rows h
  · intro r hr hne
    simp only [MysqlShortUrl.remove, List.mem_filter]
    exact ⟨hr, by simp [rowMatches, hne]⟩
  · intro hall
    have hfix : s.rows.filter (fun r => !rowMatches sid r) = s.rows :=
      List.filter_eq_self.mpr (List.all_eq_true.mp hall)
    simp [MysqlShortUrl.remove, hfix]

/-- C9, applied twice at a concrete store and a key that never existed. -/
theorem remove_idempotent_witness :
    (MysqlShortUrl.remove none ⟨[⟨0, "a", "u", 1⟩], 1⟩ "zz").1 = .ok () ∧
    (MysqlShortUrl.remove none
        (MysqlShortUrl.remove none ⟨[⟨0, "a", "u", 1⟩], 1⟩ "zz").2 "zz").1 = .ok () ∧
    (MysqlShortUrl.remove none ⟨[⟨0, "a", "u", 1⟩], 1⟩ "zz").2 = ⟨[⟨0, "a", "u", 1⟩], 1⟩ :=
  ⟨(remove_idempotent_at_most_one ⟨[⟨0, "a", "u", 1⟩], 1⟩ "zz" (by decide)).1,
   (remove_idempotent_at_most_one ⟨[⟨0, "a", "u", 1⟩], 1⟩ "zz" (by decide)).2.1,
   (remove_idempotent_at_most_one ⟨[⟨0, "a", "u", 1⟩], 1⟩ "zz" (by decide)).2.2.2.2 (by decide)⟩

/-- C10: `add` validates nothing about its inputs: for every `short_id`
(including the empty string and strings longer than 32 characters) and every
`original_url`, the strings are passed to the backend verbatim, and on the
success path the stored row holds exactly those strings. -/
theorem add_no_validation (s : Store) (sid url : String) (ts : Int)
    (h : s.rows.any (rowMatches sid) = false) :
    (MysqlShortUrl.add none s sid url ts).1 = .ok () ∧
    (MysqlShortUrl.add none s sid url ts).2.rows
      = s.rows ++ [⟨s.next_id, sid, url, ts⟩] := by
  constructor <;> simp [MysqlShortUrl.add, backendInsert, h]

/-- C10, applied at the empty `short_id` and at a 33-character `short_id`,
both stored verbatim. -/
theorem add_no_validation_witness :
    (MysqlShortUrl.add none ⟨[], 0⟩ "" "https://example.com/a" 1).1 = .ok () ∧
    (MysqlShortUrl.add none ⟨[], 0⟩ "aaaaaaaaaaaaaaaaaaaaaaaaaaaaaaaaa" "u" 1).2.rows
      = [⟨0, "aaaaaaaaaaaaaaaaaaaaaaaaaaaaaaaaa", "u", 1⟩] ∧
    ("" : String).length = 0 ∧
    ("aaaaaaaaaaaaaaaaaaaaaaaaaaaaaaaaa" : String).length = 33 :=
  ⟨(add_no_validation ⟨[], 0⟩ "" "https://example.com/a" 1 (by rfl)).1,
   (add_no_validation ⟨[], 0⟩ "aaaaaaaaaaaaaaaaaaaaaaaaaaaaaaaaa" "u" 1 (by rfl)).2,
   by decide, by decide⟩

end ShortUrlSpec
